import Mathlib

/-!
Formal model of the `math_trainer` repository (files `trainer.py` and
`trainer_streamlit.py`): the arithmetic problem generator, the
session-scoring state machine, the CSV persistence layer and the
history loading done for visualization, together with proofs of the
specified properties.

Python's `random` module is modelled by a deterministic stream of raw
draws (`Rng`); `random.randint(lo, hi)` reduces the next raw draw into
the inclusive interval.  Latencies and the derived statistics are
modelled with `ℚ` (the code's float arithmetic on these small values is
exact enough that the spec states exact equalities).  Python exceptions
are modelled with `Option`/`Except`.
-/

/-- A deterministic entropy source standing in for Python's `random`
module: `stream k` is the `k`-th raw draw, `idx` the position of the
next draw. -/
structure Rng where
  stream : Nat → Nat
  idx : Nat

/-- Pull one raw number from the entropy source. -/
def Rng.take (r : Rng) : Nat × Rng :=
  (r.stream r.idx, ⟨r.stream, r.idx + 1⟩)

/-- Model of Python `random.randint(lo, hi)` (both bounds inclusive):
the next raw draw reduced into the interval. -/
def randint (lo hi : Nat) (r : Rng) : Nat × Rng :=
  let p := r.take
  (lo + p.1 % (hi + 1 - lo), p.2)

/-- Model of Python `random.choice([x, y])` on a two-element list. -/
def choice2 {α : Type} (x y : α) (r : Rng) : α × Rng :=
  let p := r.take
  (if p.1 % 2 = 0 then x else y, p.2)

/-- Lines 66-69 of `trainer.py`: `current_op = operation`, replaced by a
uniformly random choice between addition and subtraction when the
filter is `"both"`. -/
def chooseOperationCli (operation : String) (r : Rng) : String × Rng :=
  if operation = "both" then choice2 "addition" "subtraction" r
  else (operation, r)

/-- Lines 71-76 of `trainer.py`: `"missing"` always hides the operand,
`"mixed"` flips a coin, and any other mode value (including ones
outside the documented set) never hides. -/
def chooseMissingCli (mode : String) (r : Rng) : Bool × Rng :=
  if mode = "missing" then (true, r)
  else if mode = "mixed" then choice2 true false r
  else (false, r)

/-- Function `_choose_operation` of `trainer_streamlit.py` (lines 14-17). -/
def choose_operation (requested : String) (r : Rng) : String × Rng :=
  if requested = "both" then choice2 "addition" "subtraction" r
  else (requested, r)

/-- Function `_choose_missing` of `trainer_streamlit.py` (lines 20-24):
`"mixed"` and `"both"` both flip a coin; otherwise hide exactly when the
mode is `"missing"`. -/
def choose_missing (mode : String) (r : Rng) : Bool × Rng :=
  if mode = "mixed" ∨ mode = "both" then choice2 true false r
  else (mode = "missing", r)

/-- Lines 79-85 of `trainer.py`: the addition branch of the CLI
generator.  Returns `(prompt, correct_answer)` and the advanced
entropy source. -/
def addProblemCli (max_number : Nat) (is_missing_val : Bool) (r : Rng) :
    (String × Int) × Rng :=
  let pa := randint 0 max_number r
  let pb := randint 0 max_number pa.2
  let a := pa.1
  let b := pb.1
  let result := a + b
  if is_missing_val then
    ((Nat.repr a ++ " + _ = " ++ Nat.repr result, (b : Int)), pb.2)
  else
    ((Nat.repr a ++ " + " ++ Nat.repr b ++ " = ", (result : Int)), pb.2)

/-- Lines 86-93 of `trainer.py`: the subtraction branch of the CLI
generator; `b` is drawn from `[0, a]` and `result = a - b` is computed
on integers. -/
def subProblemCli (max_number : Nat) (is_missing_val : Bool) (r : Rng) :
    (String × Int) × Rng :=
  let pa := randint 0 max_number r
  let a := pa.1
  let pb := randint 0 a pa.2
  let b := pb.1
  let result : Int := (a : Int) - (b : Int)
  if is_missing_val then
    ((Nat.repr a ++ " - _ = " ++ toString result, (b : Int)), pb.2)
  else
    ((Nat.repr a ++ " - " ++ Nat.repr b ++ " = ", result), pb.2)

/-- Lines 35-41 of `trainer_streamlit.py`: the addition branch of
`generate_problem`; the standard prompt ends in `"= ?"`. -/
def addProblemWeb (max_number : Nat) (is_missing_val : Bool) (r : Rng) :
    (String × Int) × Rng :=
  let pa := randint 0 max_number r
  let pb := randint 0 max_number pa.2
  let a := pa.1
  let b := pb.1
  let result := a + b
  if is_missing_val then
    ((Nat.repr a ++ " + _ = " ++ Nat.repr result, (b : Int)), pb.2)
  else
    ((Nat.repr a ++ " + " ++ Nat.repr b ++ " = ?", (result : Int)), pb.2)

/-- Lines 42-49 of `trainer_streamlit.py`: the subtraction branch of
`generate_problem`; the standard prompt ends in `"= ?"`. -/
def subProblemWeb (max_number : Nat) (is_missing_val : Bool) (r : Rng) :
    (String × Int) × Rng :=
  let pa := randint 0 max_number r
  let a := pa.1
  let pb := randint 0 a pa.2
  let b := pb.1
  let result : Int := (a : Int) - (b : Int)
  if is_missing_val then
    ((Nat.repr a ++ " - _ = " ++ toString result, (b : Int)), pb.2)
  else
    ((Nat.repr a ++ " - " ++ Nat.repr b ++ " = ?", result), pb.2)

/-- Function `generate_problem` of `trainer_streamlit.py` (lines 27-51):
resolve the operation, resolve hiding, then build the problem. -/
def generate_problem (max_number : Nat) (operation mode : String) (r : Rng) :
    (String × Int) × Rng :=
  let po := choose_operation operation r
  let pm := choose_missing mode po.2
  if po.1 = "addition" then addProblemWeb max_number pm.1 pm.2
  else subProblemWeb max_number pm.1 pm.2

/-- Steps 1-3 of the question loop of `train` in `trainer.py`
(lines 66-93): the per-question problem generation of the CLI. -/
def cliProblem (max_number : Nat) (operation mode : String) (r : Rng) :
    (String × Int) × Rng :=
  let po := chooseOperationCli operation r
  let pm := chooseMissingCli mode po.2
  if po.1 = "addition" then addProblemCli max_number pm.1 pm.2
  else subProblemCli max_number pm.1 pm.2

/-- Model of Python's `str.strip()`: drop leading and trailing
whitespace. -/
def pyStrip (s : String) : String :=
  (((s.data.dropWhile Char.isWhitespace).reverse.dropWhile
      Char.isWhitespace).reverse).asString

/-- Model of Python's `int(s)` on the answer strings the trainer reads:
surrounding whitespace is stripped, an optional sign is followed by at
least one decimal digit; anything else raises `ValueError` (`none`). -/
def digitsVal (cs : List Char) : Nat :=
  cs.foldl (fun acc c => acc * 10 + (c.toNat - 48)) 0

/-- A non-empty all-digit character list, evaluated; otherwise `none`. -/
def parseDigits (cs : List Char) : Option Nat :=
  if cs ≠ [] ∧ cs.all Char.isDigit then some (digitsVal cs) else none

/-- Model of Python `int(s)` (see `digitsVal`): optional sign, digits. -/
def parsePyInt (s : String) : Option Int :=
  match (pyStrip s).toList with
  | '-' :: cs => (parseDigits cs).map (fun n => -(n : Int))
  | '+' :: cs => (parseDigits cs).map (fun n => (n : Int))
  | cs => (parseDigits cs).map (fun n => (n : Int))

/-- The input loop of `train` (`trainer.py` lines 96-104): keep asking
until one integer is accepted.  Blank input is skipped silently, input
that fails `int()` prints a message and retries; a valid integer breaks
the loop.  `none` models input being exhausted (the real program would
block forever waiting for more). -/
def readAnswer : List String → Option (Int × List String)
  | [] => none
  | s :: rest =>
    if pyStrip s = "" then readAnswer rest
    else
      match parsePyInt s with
      | some v => some (v, rest)
      | none => readAnswer rest

/-- The mutable session accumulators of `train` (`trainer.py`
lines 61-63). -/
structure SessionState where
  correct_answers : Nat
  total_time_per_question : List ℚ
  mistakes : List (String × Int × Int)
deriving DecidableEq

/-- Steps 4-5 of the question cycle after a valid answer arrived
(`trainer.py` lines 106-115): append the elapsed time, then either
increment `correct_answers` or append a mistake record. -/
def scoreAnswer (s : SessionState) (prompt : String) (correct answer : Int)
    (q_time : ℚ) : SessionState :=
  let s1 : SessionState :=
    { s with total_time_per_question := s.total_time_per_question ++ [q_time] }
  if answer = correct then
    { s1 with correct_answers := s1.correct_answers + 1 }
  else
    { s1 with mistakes := s1.mistakes ++ [(prompt, answer, correct)] }

/-- One full question cycle of the CLI loop: generate the problem,
read one valid integer answer from the input supply, and score it.
`q_time` is the elapsed wall time for this question (the code measures
it around the input loop). -/
def questionStep (max_number : Nat) (operation mode : String) (q_time : ℚ)
    (r : Rng) (inputs : List String) (s : SessionState) :
    Option (SessionState × Rng × List String) :=
  let pg := cliProblem max_number operation mode r
  match readAnswer inputs with
  | none => none
  | some (answer, rest) =>
    some (scoreAnswer s pg.1.1 pg.1.2 answer q_time, pg.2, rest)

/-- The question loop of `train` (`trainer.py` lines 65-116) over a
given number of questions; `times k` is the elapsed time of the `k`-th
remaining question. -/
def runSession (max_number : Nat) (operation mode : String) :
    Nat → (Nat → ℚ) → Rng → List String → SessionState →
    Option (SessionState × Rng × List String)
  | 0, _, r, inputs, s => some (s, r, inputs)
  | n + 1, times, r, inputs, s =>
    match questionStep max_number operation mode (times 0) r inputs s with
    | none => none
    | some (s1, r1, rest) =>
      runSession max_number operation mode n (fun i => times (i + 1)) r1 rest s1

/-- Python division on the session statistics: raises
`ZeroDivisionError` (`none`) when the denominator is zero. -/
def pyDiv (x y : ℚ) : Option ℚ :=
  if y = 0 then none else some (x / y)

/-- Line 119 of `trainer.py`:
`accuracy = (correct_answers / num_questions) * 100`. -/
def sessionAccuracy (correct num_questions : Nat) : Option ℚ :=
  (pyDiv (correct : ℚ) (num_questions : ℚ)).map (fun q => q * 100)

/-- Line 120 of `trainer.py`:
`avg_time = sum(total_time_per_question) / len(total_time_per_question)`. -/
def sessionAvgTime (times : List ℚ) : Option ℚ :=
  pyDiv times.sum (times.length : ℚ)

/-- Observable outcome of one invocation of the `train` command. -/
inductive TrainOutcome where
  | rejected (message : String)
  | crashed (message : String)
  | completed (accuracy avg_time : ℚ) (final : SessionState)
deriving DecidableEq

/-- The `train` command of `trainer.py` (lines 42-132): validate the
operation (and nothing else), run the question loop, then compute the
summary statistics.  `num_questions` is the raw integer option;
`range(1, n + 1)` iterates `max 0 n` times, hence `Int.toNat`.  An
invalid operation is rejected up front (`typer.Exit`); a division by
zero in the summary computation crashes the command. -/
def train (max_number : Nat) (num_questions : Int) (mode operation : String)
    (times : Nat → ℚ) (r : Rng) (inputs : List String) : TrainOutcome :=
  if ¬ (operation = "addition" ∨ operation = "subtraction" ∨ operation = "both") then
    .rejected "Error: Operation must be addition, subtraction, or both."
  else
    match runSession max_number operation mode num_questions.toNat times r inputs
        ⟨0, [], []⟩ with
    | none => .crashed "EOFError"
    | some (s, _, _) =>
      match sessionAccuracy s.correct_answers num_questions.toNat,
            sessionAvgTime s.total_time_per_question with
      | some acc, some avg => .completed acc avg s
      | _, _ => .crashed "ZeroDivisionError"

/-- Function `get_history_filename` of `trainer.py` (lines 15-18). -/
def get_history_filename (user : String) : String :=
  "math_history_" ++ ((user.toList.filter Char.isAlphanum).map Char.toLower).asString
    ++ ".csv"

/-- One CSV line of a history file: the header line, or one data row.
The numeric cells are kept as exact values (the code renders them with
two decimals). -/
inductive CsvRow where
  | header
  | data (timestamp : String) (accuracy avg_time : ℚ) (questions : Nat)
      (operation mode : String)
deriving DecidableEq

/-- Function `save_result` of `trainer.py` (lines 21-38): the file is
opened in append mode; when the file did not yet exist (`none`) the
header row is written first; then exactly one data row is appended.
The result is the full row list of the file afterwards. -/
def save_result (file : Option (List CsvRow)) (timestamp : String)
    (accuracy avg_time : ℚ) (num_questions : Nat) (operation mode : String) :
    List CsvRow :=
  let rows := match file with
    | none => [CsvRow.header]
    | some rs => rs
  rows ++ [CsvRow.data timestamp accuracy avg_time num_questions operation mode]

/-- The data rows of a history file, in order. -/
def dataRows (rows : List CsvRow) : List CsvRow :=
  rows.filter (fun row => row ≠ CsvRow.header)

/-- How often the header row occurs in a history file. -/
def headerCount (rows : List CsvRow) : Nat :=
  rows.count CsvRow.header

/-- The Streamlit per-session state (the keys of `st.session_state`
used by `trainer_streamlit.py`; the timer key `q_start` is abstracted
into the elapsed times handed to `advance_after_answer`). -/
structure StSession where
  started : Bool
  current_question : Nat
  correct_count : Nat
  total_times : List ℚ
  mistakes : List (String × Int × Int)
  answer_log : List String
  max_number : Nat
  num_questions : Nat
  operation : String
  mode : String
  prompt : String
  correct : Int
deriving DecidableEq

/-- Function `start_session` of `trainer_streamlit.py` (lines 85-100):
reset the counters, normalize the UI mode value `"both"` to `"mixed"`,
and generate the first problem with the normalized mode. -/
def start_session (max_number num_questions : Nat) (operation mode : String)
    (r : Rng) : StSession × Rng :=
  let mode1 := if mode = "both" then "mixed" else mode
  let pg := generate_problem max_number operation mode1 r
  ({ started := true, current_question := 1, correct_count := 0,
     total_times := [], mistakes := [], answer_log := [],
     max_number := max_number, num_questions := num_questions,
     operation := operation, mode := mode1,
     prompt := pg.1.1, correct := pg.1.2 }, pg.2)

/-- Function `_compact_equation_from_prompt_and_answer` of
`trainer_streamlit.py` (lines 103-106). -/
def compact_equation (pr : String) (answer : Int) : String :=
  (pr.replace "?" (toString answer)).replace "_" (toString answer)

/-- Function `advance_after_answer` of `trainer_streamlit.py`
(lines 109-139): append the elapsed time, log and score the answer,
then either finish the session or generate the next problem.  The log
lines are kept without their surrounding HTML markup. -/
def advance_after_answer (user_answer : Int) (q_time : ℚ) (st : StSession)
    (r : Rng) : StSession × Rng :=
  let st1 : StSession := { st with total_times := st.total_times ++ [q_time] }
  let eq_compact := compact_equation st1.prompt user_answer
  let st2 : StSession :=
    if user_answer = st1.correct then
      { st1 with correct_count := st1.correct_count + 1,
                 answer_log := st1.answer_log ++ ["ok " ++ eq_compact] }
    else
      { st1 with
          answer_log := st1.answer_log ++
            ["wrong " ++ eq_compact ++ " (" ++ toString st1.correct ++ ")"],
          mistakes := st1.mistakes ++ [(st1.prompt, user_answer, st1.correct)] }
  if st2.num_questions ≤ st2.current_question then
    ({ st2 with started := false }, r)
  else
    let pg := generate_problem st2.max_number st2.operation st2.mode r
    ({ st2 with current_question := st2.current_question + 1,
                prompt := pg.1.1, correct := pg.1.2 }, pg.2)

/-- Observable outcome of the Streamlit answer callback. -/
inductive AnswerEvent where
  | ignored
  | warned (message : String)
  | advanced (st : StSession) (r : Rng)

/-- Function `_handle_answer_change` of `trainer_streamlit.py`
(lines 197-209): empty input is ignored, a non-integer shows a warning
and changes nothing, a valid integer advances the session. -/
def handle_answer_change (entered : String) (q_time : ℚ) (st : StSession)
    (r : Rng) : AnswerEvent :=
  let e := pyStrip entered
  if e = "" then .ignored
  else
    match parsePyInt e with
    | some v =>
      let p := advance_after_answer v q_time st r
      .advanced p.1 p.2
    | none => .warned "Please enter a valid integer."

/-- A parsed `"YYYY-MM-DD HH:MM:SS"` timestamp. -/
structure Timestamp where
  year : Nat
  month : Nat
  day : Nat
  hour : Nat
  minute : Nat
  second : Nat
deriving DecidableEq

/-- Model of `pandas.to_datetime` restricted to the timestamp format
the trainer itself writes (`"YYYY-MM-DD HH:MM:SS"`, `trainer.py`
line 32); a string of any other shape raises (`none`). -/
def parseTimestamp (s : String) : Option Timestamp :=
  match s.toList with
  | [y1, y2, y3, y4, '-', m1, m2, '-', d1, d2, ' ',
     h1, h2, ':', mi1, mi2, ':', s1, s2] =>
    if [y1, y2, y3, y4, m1, m2, d1, d2, h1, h2, mi1, mi2, s1, s2].all
        Char.isDigit then
      some ⟨digitsVal [y1, y2, y3, y4], digitsVal [m1, m2], digitsVal [d1, d2],
            digitsVal [h1, h2], digitsVal [mi1, mi2], digitsVal [s1, s2]⟩
    else none
  | _ => none

/-- Value of an unsigned decimal literal `digits` or
`digits.digits` (at least one digit overall), as a rational. -/
def parseUnsignedDec (cs : List Char) : Option ℚ :=
  match cs.splitOn '.' with
  | [ip] => (parseDigits ip).map (fun n => (n : ℚ))
  | [ip, fp] =>
    if ip.all Char.isDigit ∧ fp.all Char.isDigit ∧ ¬(ip = [] ∧ fp = []) then
      some (mkRat (digitsVal ip * 10 ^ fp.length + digitsVal fp) (10 ^ fp.length))
    else none
  | _ => none

/-- Model of the numeric-cell parsing `pandas.read_csv` performs on the
`Accuracy`/`AvgTime` columns: an optionally signed decimal literal; a
cell of any other shape leaves the column non-numeric and the later
aggregation raises (`none`). -/
def parsePyFloat (s : String) : Option ℚ :=
  match (pyStrip s).toList with
  | '-' :: cs => (parseUnsignedDec cs).map (fun q => -q)
  | '+' :: cs => parseUnsignedDec cs
  | cs => parseUnsignedDec cs

/-- One raw data row of a history CSV file as text cells, in the
column order written by `save_result`. -/
structure RawRow where
  timestamp : String
  accuracy : String
  avg_time : String
  questions : String

/-- A fully parsed history row. -/
structure ParsedRow where
  timestamp : Timestamp
  accuracy : ℚ
  avg_time : ℚ
  questions : Nat
deriving DecidableEq

/-- Parse every cell of one raw row; `none` when any cell is
malformed. -/
def parseRow (row : RawRow) : Option ParsedRow :=
  match parseTimestamp row.timestamp, parsePyFloat row.accuracy,
        parsePyFloat row.avg_time, parseDigits row.questions.toList with
  | some t, some a, some v, some q => some ⟨t, a, v, q⟩
  | _, _, _, _ => none

/-- Parse a whole history file: all rows, or `none` as soon as any row
is malformed. -/
def parseAll : List RawRow → Option (List ParsedRow)
  | [] => some []
  | row :: rest =>
    match parseRow row, parseAll rest with
    | some p, some ps => some (p :: ps)
    | _, _ => none

/-- The history-loading pipeline of the visualization code
(`trainer.py` `plot`, lines 146-152, and `trainer_streamlit.py` `main`,
lines 309-333): `pandas.to_datetime` over the `Timestamp` column and
the numeric aggregation both raise as soon as any cell is malformed, so
the whole load aborts (`Except.error`, modelling the CLI's uncaught
exception and Streamlit's warning followed by `st.stop()`) exactly when
some cell of some row fails to parse; no row is skipped individually. -/
def load_history (rows : List RawRow) : Except String (List ParsedRow) :=
  match parseAll rows with
  | some parsed => Except.ok parsed
  | none => Except.error "malformed history row aborts the load"

/-- Whether a `train` invocation was rejected up front by the
configuration check. -/
def TrainOutcome.isRejected : TrainOutcome → Bool
  | .rejected _ => true
  | _ => false

/-- The final session accumulators of a `train` invocation that ran to
completion, if any. -/
def TrainOutcome.finalState : TrainOutcome → Option SessionState
  | .completed _ _ s => some s
  | _ => none

theorem mod_succ_le (s a : Nat) : s % (a + 1) ≤ a :=
  Nat.lt_succ_iff.mp (Nat.mod_lt _ (Nat.succ_pos a))

theorem randint_zero (hi : Nat) (r : Rng) :
    randint 0 hi r = (r.stream r.idx % (hi + 1), ⟨r.stream, r.idx + 1⟩) := by
  simp [randint, Rng.take]

theorem randint_zero_le (hi : Nat) (r : Rng) : (randint 0 hi r).1 ≤ hi := by
  rw [randint_zero]
  exact mod_succ_le _ _

theorem digitChar_isDigit {m : Nat} (h : m < 10) :
    (Nat.digitChar m).isDigit = true := by
  interval_cases m <;> decide

theorem toDigitsCore_isDigit (fuel : Nat) :
    ∀ (n : Nat) (ds : List Char), (∀ c ∈ ds, c.isDigit = true) →
      ∀ c ∈ Nat.toDigitsCore 10 fuel n ds, c.isDigit = true := by
  induction fuel with
  | zero =>
    intro n ds hds c hc
    simpa [Nat.toDigitsCore] using hds c hc
  | succ fuel ih =>
    intro n ds hds c hc
    have hcons : ∀ x ∈ Nat.digitChar (n % 10) :: ds, x.isDigit = true := by
      intro x hx
      rcases List.mem_cons.mp hx with hx | hx
      · subst hx
        exact digitChar_isDigit (Nat.mod_lt _ (by norm_num))
      · exact hds x hx
    simp only [Nat.toDigitsCore] at hc
    by_cases hz : n / 10 = 0
    · rw [if_pos hz] at hc
      exact hcons c hc
    · rw [if_neg hz] at hc
      exact ih (n / 10) _ hcons c hc

theorem repr_isDigit (n : Nat) : ∀ c ∈ (Nat.repr n).data, c.isDigit = true := by
  have hdata : (Nat.repr n).data = Nat.toDigitsCore 10 (n + 1) n [] := rfl
  rw [hdata]
  exact toDigitsCore_isDigit (n + 1) n [] (by intro c hc; cases hc)

theorem repr_no_blank (n : Nat) : '_' ∉ (Nat.repr n).data := by
  intro h
  exact absurd (repr_isDigit n '_' h) (by decide)

theorem toString_int_nonneg (i : Int) (h : 0 ≤ i) :
    toString i = Nat.repr i.toNat := by
  obtain ⟨m, rfl⟩ := Int.eq_ofNat_of_zero_le h
  rfl

theorem subProblemCli_eq (maxn : Nat) (missing : Bool) (r : Rng) :
    subProblemCli maxn missing r =
      ((if missing then
          (Nat.repr (randint 0 maxn r).1 ++ " - _ = " ++
             toString (((randint 0 maxn r).1 : Int) -
               ((randint 0 (randint 0 maxn r).1 (randint 0 maxn r).2).1 : Int)),
           ((randint 0 (randint 0 maxn r).1 (randint 0 maxn r).2).1 : Int))
        else
          (Nat.repr (randint 0 maxn r).1 ++ " - " ++
             Nat.repr (randint 0 (randint 0 maxn r).1 (randint 0 maxn r).2).1 ++ " = ",
           ((randint 0 maxn r).1 : Int) -
             ((randint 0 (randint 0 maxn r).1 (randint 0 maxn r).2).1 : Int))),
       (randint 0 (randint 0 maxn r).1 (randint 0 maxn r).2).2) := by
  cases missing <;> rfl

theorem subProblemWeb_eq (maxn : Nat) (missing : Bool) (r : Rng) :
    subProblemWeb maxn missing r =
      ((if missing then
          (Nat.repr (randint 0 maxn r).1 ++ " - _ = " ++
             toString (((randint 0 maxn r).1 : Int) -
               ((randint 0 (randint 0 maxn r).1 (randint 0 maxn r).2).1 : Int)),
           ((randint 0 (randint 0 maxn r).1 (randint 0 maxn r).2).1 : Int))
        else
          (Nat.repr (randint 0 maxn r).1 ++ " - " ++
             Nat.repr (randint 0 (randint 0 maxn r).1 (randint 0 maxn r).2).1 ++ " = ?",
           ((randint 0 maxn r).1 : Int) -
             ((randint 0 (randint 0 maxn r).1 (randint 0 maxn r).2).1 : Int))),
       (randint 0 (randint 0 maxn r).1 (randint 0 maxn r).2).2) := by
  cases missing <;> rfl

/-- C1: whenever a generator call resolves to subtraction (any
max_operand, any pattern mode, both the CLI and the Streamlit
generator), operand `b` is drawn from `[0, a]` so `b ≤ a`, the stated
result is `a - b` (it is the correct answer in standard mode and is
printed in the prompt in missing mode, where the answer is `b`), and
that result is never negative. -/
theorem subtraction_never_negative (maxn : Nat) (operation mode : String)
    (rw rc : Rng)
    (hw : (choose_operation operation rw).1 = "subtraction")
    (hc : (chooseOperationCli operation rc).1 = "subtraction") :
    (∀ (missing : Bool) (r : Rng),
      let a := (randint 0 maxn r).1
      let b := (randint 0 a (randint 0 maxn r).2).1
      b ≤ a ∧ (0 : Int) ≤ (a : Int) - (b : Int) ∧
      (subProblemCli maxn missing r).1.2 =
        (if missing then (b : Int) else (a : Int) - (b : Int)) ∧
      (subProblemWeb maxn missing r).1.2 =
        (if missing then (b : Int) else (a : Int) - (b : Int)) ∧
      (subProblemCli maxn true r).1.1 =
        Nat.repr a ++ " - _ = " ++ toString ((a : Int) - (b : Int)) ∧
      (subProblemWeb maxn true r).1.1 =
        Nat.repr a ++ " - _ = " ++ toString ((a : Int) - (b : Int))) ∧
    generate_problem maxn operation mode rw =
      subProblemWeb maxn (choose_missing mode (choose_operation operation rw).2).1
        (choose_missing mode (choose_operation operation rw).2).2 ∧
    cliProblem maxn operation mode rc =
      subProblemCli maxn (chooseMissingCli mode (chooseOperationCli operation rc).2).1
        (chooseMissingCli mode (chooseOperationCli operation rc).2).2 := by
  refine ⟨?_, ?_, ?_⟩
  · intro missing r
    have hba : (randint 0 (randint 0 maxn r).1 (randint 0 maxn r).2).1
        ≤ (randint 0 maxn r).1 := randint_zero_le _ _
    refine ⟨hba, by omega, ?_, ?_, ?_, ?_⟩
    · rw [subProblemCli_eq]
      cases missing <;> simp
    · rw [subProblemWeb_eq]
      cases missing <;> simp
    · rw [subProblemCli_eq]
      simp
    · rw [subProblemWeb_eq]
      simp
  · have hne : ¬ ((choose_operation operation rw).1 = "addition") := by
      rw [hw]; decide
    simp only [generate_problem, hne, if_false, ite_false]
  · have hne : ¬ ((chooseOperationCli operation rc).1 = "addition") := by
      rw [hc]; decide
    simp only [cliProblem, hne, if_false, ite_false]

theorem subtraction_never_negative_witness :
    cliProblem 10 "subtraction" "standard" ⟨fun _ => 0, 0⟩ =
      subProblemCli 10
        (chooseMissingCli "standard"
          (chooseOperationCli "subtraction" ⟨fun _ => 0, 0⟩).2).1
        (chooseMissingCli "standard"
          (chooseOperationCli "subtraction" ⟨fun _ => 0, 0⟩).2).2 :=
  (subtraction_never_negative 10 "subtraction" "standard"
    ⟨fun _ => 0, 0⟩ ⟨fun _ => 0, 0⟩ rfl rfl).2.2

theorem addProblemCli_eq (maxn : Nat) (missing : Bool) (r : Rng) :
    addProblemCli maxn missing r =
      ((if missing then
          (Nat.repr (randint 0 maxn r).1 ++ " + _ = " ++
             Nat.repr ((randint 0 maxn r).1 + (randint 0 maxn (randint 0 maxn r).2).1),
           ((randint 0 maxn (randint 0 maxn r).2).1 : Int))
        else
          (Nat.repr (randint 0 maxn r).1 ++ " + " ++
             Nat.repr (randint 0 maxn (randint 0 maxn r).2).1 ++ " = ",
           (((randint 0 maxn r).1 + (randint 0 maxn (randint 0 maxn r).2).1 : Nat) : Int))),
       (randint 0 maxn (randint 0 maxn r).2).2) := by
  cases missing <;> rfl

theorem addProblemWeb_eq (maxn : Nat) (missing : Bool) (r : Rng) :
    addProblemWeb maxn missing r =
      ((if missing then
          (Nat.repr (randint 0 maxn r).1 ++ " + _ = " ++
             Nat.repr ((randint 0 maxn r).1 + (randint 0 maxn (randint 0 maxn r).2).1),
           ((randint 0 maxn (randint 0 maxn r).2).1 : Int))
        else
          (Nat.repr (randint 0 maxn r).1 ++ " + " ++
             Nat.repr (randint 0 maxn (randint 0 maxn r).2).1 ++ " = ?",
           (((randint 0 maxn r).1 + (randint 0 maxn (randint 0 maxn r).2).1 : Nat) : Int))),
       (randint 0 maxn (randint 0 maxn r).2).2) := by
  cases missing <;> rfl

theorem no_blank_append {s t : String} (hs : '_' ∉ s.data) (ht : '_' ∉ t.data) :
    '_' ∉ (s ++ t).data := by
  simp only [String.data_append, List.mem_append]
  tauto

/-- C2 (counterexample): a `standard`-mode addition call of the
Streamlit generator drawing `a = 7`, `b = 3` returns the prompt
`"7 + 3 = ?"`, not the exact shape `"7 + 3 = "` that the claim states
for every generator. -/
theorem standard_prompt_shape_counterexample :
    (generate_problem 10 "addition" "standard" ⟨fun i => [7, 3].getD i 0, 0⟩).1.1
      = "7 + 3 = ?" ∧
    (generate_problem 10 "addition" "standard" ⟨fun i => [7, 3].getD i 0, 0⟩).1.1
      ≠ "7 + 3 = " ∧
    (generate_problem 10 "addition" "standard" ⟨fun i => [7, 3].getD i 0, 0⟩).1.2
      = 10 := by
  refine ⟨rfl, by decide, rfl⟩

/-- C2 (amended): in `standard` mode no prompt of either generator
contains the blank marker, the CLI addition prompt is exactly
`"a + b = "` while the Streamlit one is `"a + b = ?"`, and the correct
answer is `a + b`; in `missing` mode every prompt contains the blank
marker in operand `b`'s place and the correct answer is `operand_b`.
The mode values `"standard"`/`"missing"` resolve to never/always
hiding in both surfaces. -/
theorem pattern_mode_prompts (maxn : Nat) (r : Rng) :
    let aA := (randint 0 maxn r).1
    let bA := (randint 0 maxn (randint 0 maxn r).2).1
    let bS := (randint 0 (randint 0 maxn r).1 (randint 0 maxn r).2).1
    ('_' ∉ ((addProblemCli maxn false r).1.1).data ∧
     (addProblemCli maxn false r).1.1
       = Nat.repr aA ++ " + " ++ Nat.repr bA ++ " = " ∧
     (addProblemCli maxn false r).1.2 = ((aA + bA : Nat) : Int)) ∧
    ('_' ∉ ((addProblemWeb maxn false r).1.1).data ∧
     (addProblemWeb maxn false r).1.1
       = Nat.repr aA ++ " + " ++ Nat.repr bA ++ " = ?" ∧
     (addProblemWeb maxn false r).1.2 = ((aA + bA : Nat) : Int)) ∧
    '_' ∉ ((subProblemCli maxn false r).1.1).data ∧
    '_' ∉ ((subProblemWeb maxn false r).1.1).data ∧
    ('_' ∈ ((addProblemCli maxn true r).1.1).data ∧
     (addProblemCli maxn true r).1.2 = (bA : Int)) ∧
    ('_' ∈ ((addProblemWeb maxn true r).1.1).data ∧
     (addProblemWeb maxn true r).1.2 = (bA : Int)) ∧
    ('_' ∈ ((subProblemCli maxn true r).1.1).data ∧
     (subProblemCli maxn true r).1.2 = (bS : Int)) ∧
    ('_' ∈ ((subProblemWeb maxn true r).1.1).data ∧
     (subProblemWeb maxn true r).1.2 = (bS : Int)) ∧
    (∀ r2 : Rng, chooseMissingCli "standard" r2 = (false, r2) ∧
      chooseMissingCli "missing" r2 = (true, r2) ∧
      choose_missing "standard" r2 = (false, r2) ∧
      choose_missing "missing" r2 = (true, r2)) := by
  intro aA bA bS
  have hlit1 : '_' ∈ " + _ = ".data := by decide
  have hlit2 : '_' ∈ " - _ = ".data := by decide
  refine ⟨⟨?_, ?_, ?_⟩, ⟨?_, ?_, ?_⟩, ?_, ?_, ⟨?_, ?_⟩, ⟨?_, ?_⟩, ⟨?_, ?_⟩,
    ⟨?_, ?_⟩, ?_⟩
  · rw [addProblemCli_eq]
    simp only [if_false, Bool.false_eq_true, ite_false]
    exact no_blank_append (no_blank_append (no_blank_append
      (repr_no_blank _) (by decide)) (repr_no_blank _)) (by decide)
  · rw [addProblemCli_eq]; simp
  · rw [addProblemCli_eq]; simp
  · rw [addProblemWeb_eq]
    simp only [if_false, Bool.false_eq_true, ite_false]
    exact no_blank_append (no_blank_append (no_blank_append
      (repr_no_blank _) (by decide)) (repr_no_blank _)) (by decide)
  · rw [addProblemWeb_eq]; simp
  · rw [addProblemWeb_eq]; simp
  · rw [subProblemCli_eq]
    simp only [if_false, Bool.false_eq_true, ite_false]
    exact no_blank_append (no_blank_append (no_blank_append
      (repr_no_blank _) (by decide)) (repr_no_blank _)) (by decide)
  · rw [subProblemWeb_eq]
    simp only [if_false, Bool.false_eq_true, ite_false]
    exact no_blank_append (no_blank_append (no_blank_append
      (repr_no_blank _) (by decide)) (repr_no_blank _)) (by decide)
  · rw [addProblemCli_eq]
    simp only [if_true, String.data_append, List.mem_append]
    tauto
  · rw [addProblemCli_eq]; simp
  · rw [addProblemWeb_eq]
    simp only [if_true, String.data_append, List.mem_append]
    tauto
  · rw [addProblemWeb_eq]; simp
  · rw [subProblemCli_eq]
    simp only [if_true, String.data_append, List.mem_append]
    tauto
  · rw [subProblemCli_eq]; simp
  · rw [subProblemWeb_eq]
    simp only [if_true, String.data_append, List.mem_append]
    tauto
  · rw [subProblemWeb_eq]; simp
  · intro r2
    refine ⟨rfl, rfl, ?_, ?_⟩ <;> simp [choose_missing]

theorem scoreAnswer_counts (s : SessionState) (p : String) (c ans : Int)
    (t : ℚ) :
    (scoreAnswer s p c ans t).total_time_per_question
      = s.total_time_per_question ++ [t] ∧
    ((ans = c ∧ (scoreAnswer s p c ans t).correct_answers = s.correct_answers + 1 ∧
        (scoreAnswer s p c ans t).mistakes = s.mistakes) ∨
      (ans ≠ c ∧ (scoreAnswer s p c ans t).correct_answers = s.correct_answers ∧
        (scoreAnswer s p c ans t).mistakes = s.mistakes ++ [(p, ans, c)])) := by
  by_cases h : ans = c <;> simp [scoreAnswer, h]

theorem runSession_counts (maxn : Nat) (operation mode : String) :
    ∀ (n : Nat) (times : Nat → ℚ) (r : Rng) (inputs : List String)
      (s : SessionState) (out : SessionState × Rng × List String),
      runSession maxn operation mode n times r inputs s = some out →
      out.1.correct_answers + out.1.mistakes.length
        = s.correct_answers + s.mistakes.length + n ∧
      out.1.total_time_per_question.length
        = s.total_time_per_question.length + n := by
  intro n
  induction n with
  | zero =>
    intro times r inputs s out h
    simp only [runSession, Option.some.injEq] at h
    subst h
    simp
  | succ n ih =>
    intro times r inputs s out h
    simp only [runSession] at h
    cases hq : questionStep maxn operation mode (times 0) r inputs s with
    | none => rw [hq] at h; cases h
    | some trip =>
      rw [hq] at h
      obtain ⟨s1, r1, rest⟩ := trip
      have hrec := ih (fun i => times (i + 1)) r1 rest s1 out h
      simp only [questionStep] at hq
      cases hr : readAnswer inputs with
      | none => rw [hr] at hq; cases hq
      | some pr =>
        rw [hr] at hq
        obtain ⟨ans, rest2⟩ := pr
        simp only [Option.some.injEq, Prod.mk.injEq] at hq
        obtain ⟨hq1, _, _⟩ := hq
        have hsc := scoreAnswer_counts s
          (cliProblem maxn operation mode r).1.1
          (cliProblem maxn operation mode r).1.2 ans (times 0)
        rw [hq1] at hsc
        have hlen : s1.total_time_per_question.length
            = s.total_time_per_question.length + 1 := by
          rw [hsc.1]
          simp
        have hcm : s1.correct_answers + s1.mistakes.length
            = s.correct_answers + s.mistakes.length + 1 := by
          rcases hsc.2 with ⟨_, h1, h2⟩ | ⟨_, h1, h2⟩
          · rw [h1, h2]
            omega
          · rw [h1, h2]
            simp only [List.length_append, List.length_cons, List.length_nil]
            omega
        constructor
        · omega
        · omega

/-- C3: for every completed session with `question_count > 0`, the
computed accuracy is exactly `100 × correct_count / question_count` and
lies in `[0, 100]`, exactly one latency is recorded per question, and
the average latency is the arithmetic mean (sum over count) of the
recorded latencies. -/
theorem session_summary_exact (maxn : Nat) (operation mode : String)
    (n : Nat) (times : Nat → ℚ) (r : Rng) (inputs : List String)
    (final : SessionState) (r2 : Rng) (rest : List String)
    (hn : 0 < n)
    (hrun : runSession maxn operation mode n times r inputs ⟨0, [], []⟩
      = some (final, r2, rest)) :
    sessionAccuracy final.correct_answers n
      = some (100 * (final.correct_answers : ℚ) / n) ∧
    0 ≤ 100 * (final.correct_answers : ℚ) / n ∧
    100 * (final.correct_answers : ℚ) / n ≤ 100 ∧
    final.total_time_per_question.length = n ∧
    sessionAvgTime final.total_time_per_question
      = some (final.total_time_per_question.sum / (n : ℚ)) := by
  have hc := runSession_counts maxn operation mode n times r inputs
    ⟨0, [], []⟩ (final, r2, rest) hrun
  simp only [List.length_nil, Nat.zero_add] at hc
  have hcn : final.correct_answers ≤ n := by
    have := hc.1
    omega
  have hlen : final.total_time_per_question.length = n := by
    have := hc.2
    omega
  have hne : (n : ℚ) ≠ 0 := Nat.cast_ne_zero.mpr hn.ne'
  have hnpos : (0 : ℚ) < n := by positivity
  refine ⟨?_, ?_, ?_, hlen, ?_⟩
  · unfold sessionAccuracy pyDiv
    rw [if_neg hne]
    simp only [Option.map_some']
    congr 1
    ring
  · positivity
  · rw [div_le_iff₀ hnpos]
    have : (final.correct_answers : ℚ) ≤ n := by exact_mod_cast hcn
    nlinarith
  · unfold sessionAvgTime pyDiv
    rw [hlen, if_neg hne]

theorem session_summary_exact_witness :
    sessionAvgTime ((⟨1, [(2 : ℚ)], []⟩ : SessionState)).total_time_per_question
      = some 2 ∧
    100 * (((⟨1, [(2 : ℚ)], []⟩ : SessionState)).correct_answers : ℚ) / (1 : Nat)
      ≤ 100 := by
  have h := session_summary_exact 10 "addition" "standard" 1 (fun _ => 2)
    ⟨fun _ => 0, 0⟩ ["0"] ⟨1, [2], []⟩ ⟨fun _ => 0, 2⟩ [] (by decide) rfl
  refine ⟨?_, h.2.2.1⟩
  have h5 := h.2.2.2.2
  simpa using h5

theorem advance_counts (ans : Int) (t : ℚ) (st : StSession) (r : Rng) :
    (advance_after_answer ans t st r).1.total_times = st.total_times ++ [t] ∧
    ((ans = st.correct ∧
        (advance_after_answer ans t st r).1.correct_count = st.correct_count + 1 ∧
        (advance_after_answer ans t st r).1.mistakes = st.mistakes) ∨
      (ans ≠ st.correct ∧
        (advance_after_answer ans t st r).1.correct_count = st.correct_count ∧
        (advance_after_answer ans t st r).1.mistakes
          = st.mistakes ++ [(st.prompt, ans, st.correct)])) := by
  by_cases h : ans = st.correct <;>
    by_cases h2 : st.num_questions ≤ st.current_question <;>
      simp [advance_after_answer, h, h2]

/-- C9: scoring is balanced.  Each answer-processing step (CLI
`scoreAnswer`, Streamlit `advance_after_answer`) appends exactly one
latency and performs exactly one of correct-count increment or mistake
append; consequently after a completed run of `n` scored questions,
`correct_count + number of mistake records = n = number of recorded
latencies`. -/
theorem question_scoring_invariant (maxn : Nat) (operation mode : String) :
    (∀ (s : SessionState) (p : String) (c ans : Int) (t : ℚ),
      (scoreAnswer s p c ans t).total_time_per_question
        = s.total_time_per_question ++ [t] ∧
      ((scoreAnswer s p c ans t).correct_answers = s.correct_answers + 1 ∧
          (scoreAnswer s p c ans t).mistakes = s.mistakes ∨
        (scoreAnswer s p c ans t).correct_answers = s.correct_answers ∧
          (scoreAnswer s p c ans t).mistakes = s.mistakes ++ [(p, ans, c)])) ∧
    (∀ (ans : Int) (t : ℚ) (st : StSession) (r : Rng),
      (advance_after_answer ans t st r).1.total_times
        = st.total_times ++ [t] ∧
      ((advance_after_answer ans t st r).1.correct_count = st.correct_count + 1 ∧
          (advance_after_answer ans t st r).1.mistakes = st.mistakes ∨
        (advance_after_answer ans t st r).1.correct_count = st.correct_count ∧
          (advance_after_answer ans t st r).1.mistakes
            = st.mistakes ++ [(st.prompt, ans, st.correct)])) ∧
    (∀ (n : Nat) (times : Nat → ℚ) (r : Rng) (inputs : List String)
       (out : SessionState × Rng × List String),
      runSession maxn operation mode n times r inputs ⟨0, [], []⟩ = some out →
      out.1.correct_answers + out.1.mistakes.length = n ∧
      out.1.total_time_per_question.length = n) := by
  refine ⟨?_, ?_, ?_⟩
  · intro s p c ans t
    have h := scoreAnswer_counts s p c ans t
    refine ⟨h.1, ?_⟩
    rcases h.2 with ⟨_, h1, h2⟩ | ⟨_, h1, h2⟩
    · exact Or.inl ⟨h1, h2⟩
    · exact Or.inr ⟨h1, h2⟩
  · intro ans t st r
    have h := advance_counts ans t st r
    refine ⟨h.1, ?_⟩
    rcases h.2 with ⟨_, h1, h2⟩ | ⟨_, h1, h2⟩
    · exact Or.inl ⟨h1, h2⟩
    · exact Or.inr ⟨h1, h2⟩
  · intro n times r inputs out h
    have hc := runSession_counts maxn operation mode n times r inputs
      ⟨0, [], []⟩ out h
    simp only [List.length_nil, Nat.zero_add] at hc
    exact ⟨by have := hc.1; omega, by have := hc.2; omega⟩

theorem question_scoring_invariant_witness :
    ((⟨1, [(2 : ℚ)], []⟩ : SessionState)).correct_answers
        + ((⟨1, [(2 : ℚ)], []⟩ : SessionState)).mistakes.length = 1 ∧
    ((⟨1, [(2 : ℚ)], []⟩ : SessionState)).total_time_per_question.length = 1 :=
  (question_scoring_invariant 10 "addition" "standard").2.2 1 (fun _ => 2)
    ⟨fun _ => 0, 0⟩ ["0"] (⟨1, [2], []⟩, ⟨fun _ => 0, 2⟩, []) rfl

/-- C4 (refutation of the code's behavior): `train` validates only the
operation, so `num_questions = 0` is not rejected; the loop body runs
zero times and the accuracy computation of line 119 divides
`correct_answers` by zero, raising `ZeroDivisionError`, instead of the
configuration being rejected before the session starts. -/
theorem qcount_zero_reaches_divzero :
    train 10 0 "mixed" "addition" (fun _ => 0) ⟨fun _ => 0, 0⟩ []
      = TrainOutcome.crashed "ZeroDivisionError" ∧
    sessionAccuracy 0 0 = none ∧
    sessionAvgTime [] = none :=
  ⟨rfl, rfl, rfl⟩

theorem readAnswer_skips :
    ∀ (pre : List String), (∀ x ∈ pre, parsePyInt x = none) →
      ∀ (rest : List String), readAnswer (pre ++ rest) = readAnswer rest := by
  intro pre
  induction pre with
  | nil =>
    intro _ rest
    rfl
  | cons x xs ih =>
    intro hpre rest
    have hx : parsePyInt x = none := hpre x (by simp)
    have ihr := ih (fun y hy => hpre y (by simp [hy])) rest
    by_cases hb : pyStrip x = ""
    · simpa [readAnswer, hb] using ihr
    · simpa [readAnswer, hb, hx] using ihr

/-- C5: a non-integer answer is rejected and the caller re-prompted
without any effect on the session: the CLI input loop skips every
malformed line, so a question step over inputs prefixed by malformed
lines equals the step over the clean inputs (same state, same counter,
same latencies, no error); the Streamlit callback turns a non-integer
into a local warning and an empty entry into a no-op, never a fatal
error. -/
theorem malformed_input_recovered (pre rest : List String)
    (hpre : ∀ x ∈ pre, parsePyInt x = none) :
    readAnswer (pre ++ rest) = readAnswer rest ∧
    (∀ (maxn : Nat) (operation mode : String) (q_time : ℚ) (r : Rng)
       (s : SessionState),
      questionStep maxn operation mode q_time r (pre ++ rest) s =
        questionStep maxn operation mode q_time r rest s) ∧
    (∀ (entered : String) (q_time : ℚ) (st : StSession) (r : Rng),
      parsePyInt (pyStrip entered) = none → pyStrip entered ≠ "" →
      handle_answer_change entered q_time st r
        = AnswerEvent.warned "Please enter a valid integer.") ∧
    (∀ (entered : String) (q_time : ℚ) (st : StSession) (r : Rng),
      pyStrip entered = "" →
      handle_answer_change entered q_time st r = AnswerEvent.ignored) := by
  have hskip := readAnswer_skips pre hpre rest
  refine ⟨hskip, ?_, ?_, ?_⟩
  · intro maxn operation mode q_time r s
    simp only [questionStep, hskip]
  · intro entered q_time st r hnone hne
    simp [handle_answer_change, hnone, hne]
  · intro entered q_time st r hb
    simp [handle_answer_change, hb]

theorem malformed_input_recovered_witness :
    readAnswer (["abc"] ++ ["5"]) = readAnswer ["5"] :=
  (malformed_input_recovered ["abc"] ["5"] (by decide)).1

/-- C6 (counterexample): a `train` invocation with `mode = "bogus"`
(outside the enumerated pattern modes) is not rejected: the session
runs, a question is asked and scored (one latency recorded), and the
command completes. -/
theorem invalid_mode_accepted :
    TrainOutcome.isRejected
      (train 10 1 "bogus" "addition" (fun _ => 2) ⟨fun _ => 0, 0⟩ ["0"])
      = false ∧
    TrainOutcome.finalState
      (train 10 1 "bogus" "addition" (fun _ => 2) ⟨fun _ => 0, 0⟩ ["0"])
      = some ⟨1, [2], []⟩ :=
  ⟨rfl, rfl⟩

/-- C6 (amended): only `operation` is validated.  An operation outside
{addition, subtraction, both} is rejected before any session starts
with a user-visible message, no question asked and no state consumed;
a pattern mode outside {standard, missing, mixed} is accepted and the
session treats it as `standard` (never hides an operand). -/
theorem config_validation (maxn : Nat) (nq : Int) (operation mode : String)
    (times : Nat → ℚ) (r : Rng) (inputs : List String)
    (hop : operation ≠ "addition" ∧ operation ≠ "subtraction" ∧
      operation ≠ "both") :
    train maxn nq mode operation times r inputs
      = TrainOutcome.rejected
          "Error: Operation must be addition, subtraction, or both." ∧
    (∀ (m : String) (r2 : Rng), m ≠ "missing" → m ≠ "mixed" →
      chooseMissingCli m r2 = (false, r2)) := by
  obtain ⟨h1, h2, h3⟩ := hop
  constructor
  · simp [train, h1, h2, h3]
  · intro m r2 hm1 hm2
    simp [chooseMissingCli, hm1, hm2]

theorem config_validation_witness :
    train 10 20 "mixed" "division" (fun _ => 0) ⟨fun _ => 0, 0⟩ []
      = TrainOutcome.rejected
          "Error: Operation must be addition, subtraction, or both." :=
  (config_validation 10 20 "division" "mixed" (fun _ => 0) ⟨fun _ => 0, 0⟩ []
    ⟨by decide, by decide, by decide⟩).1

/-- C7: persistence is append-only and order-preserving.  Writing
summary A to a fresh (non-existent) log creates the header once and one
data row; writing summary B afterwards appends exactly one more data
row, leaving A's row unchanged, so the log reads back as header, A, B
with exactly one header; appending to any existing content only ever
adds one row at the end. -/
theorem save_result_append_only (ts1 ts2 : String) (acc1 avg1 acc2 avg2 : ℚ)
    (n1 n2 : Nat) (op1 mode1 op2 mode2 : String) :
    save_result none ts1 acc1 avg1 n1 op1 mode1
      = [CsvRow.header, CsvRow.data ts1 acc1 avg1 n1 op1 mode1] ∧
    save_result (some (save_result none ts1 acc1 avg1 n1 op1 mode1))
        ts2 acc2 avg2 n2 op2 mode2
      = [CsvRow.header, CsvRow.data ts1 acc1 avg1 n1 op1 mode1,
         CsvRow.data ts2 acc2 avg2 n2 op2 mode2] ∧
    dataRows (save_result (some (save_result none ts1 acc1 avg1 n1 op1 mode1))
        ts2 acc2 avg2 n2 op2 mode2)
      = [CsvRow.data ts1 acc1 avg1 n1 op1 mode1,
         CsvRow.data ts2 acc2 avg2 n2 op2 mode2] ∧
    headerCount (save_result (some (save_result none ts1 acc1 avg1 n1 op1 mode1))
        ts2 acc2 avg2 n2 op2 mode2) = 1 ∧
    (∀ (rows : List CsvRow), save_result (some rows) ts2 acc2 avg2 n2 op2 mode2
      = rows ++ [CsvRow.data ts2 acc2 avg2 n2 op2 mode2]) := by
  refine ⟨rfl, rfl, ?_, ?_, fun rows => rfl⟩
  · simp [dataRows, save_result]
  · simp [headerCount, save_result]

theorem parseAll_eq_none {rows : List RawRow} {row : RawRow}
    (hmem : row ∈ rows) (hrow : parseRow row = none) :
    parseAll rows = none := by
  induction rows with
  | nil => cases hmem
  | cons x xs ih =>
    rcases List.mem_cons.mp hmem with rfl | hmem2
    · simp [parseAll, hrow]
    · have hxs := ih hmem2
      cases hx : parseRow x <;> simp [parseAll, hx, hxs]

/-- C8 (counterexample): a history file whose first row has an
unparseable timestamp and whose second row is well-formed aborts the
whole visualization load; the well-formed remaining row is not loaded,
although loading it alone succeeds — malformed rows are not skipped
individually. -/
theorem malformed_row_aborts :
    load_history [⟨"garbage", "80.00", "3.00", "5"⟩,
                  ⟨"2024-01-01 10:00:00", "95.00", "2.50", "10"⟩]
      = Except.error "malformed history row aborts the load" ∧
    load_history [⟨"2024-01-01 10:00:00", "95.00", "2.50", "10"⟩]
      = Except.ok [⟨⟨2024, 1, 1, 10, 0, 0⟩, 95, mkRat 5 2, 10⟩] :=
  ⟨rfl, rfl⟩

/-- C8 (amended): history loading is all-or-nothing.  When every row
parses it returns all rows in order; as soon as any row is malformed
(unparseable timestamp or numeric cell) the whole load aborts — the CLI
raises out of `plot`, Streamlit warns and stops — and no remaining
well-formed row is loaded. -/
theorem load_history_all_or_nothing (rows : List RawRow) :
    (∀ parsed, parseAll rows = some parsed →
      load_history rows = Except.ok parsed) ∧
    ((∃ row ∈ rows, parseRow row = none) →
      load_history rows = Except.error "malformed history row aborts the load") := by
  constructor
  · intro parsed hp
    simp [load_history, hp]
  · rintro ⟨row, hmem, hrow⟩
    simp [load_history, parseAll_eq_none hmem hrow]

theorem load_history_all_or_nothing_witness :
    load_history [⟨"garbage", "80.00", "3.00", "5"⟩]
      = Except.error "malformed history row aborts the load" :=
  (load_history_all_or_nothing [⟨"garbage", "80.00", "3.00", "5"⟩]).2
    ⟨⟨"garbage", "80.00", "3.00", "5"⟩, by simp, by decide⟩

/-- C10: `start_session` normalizes the UI pattern-mode value `"both"`
to `"mixed"`, so for every UI mode option the mode stored in the
session state (and later passed to `save_result` as the Mode column) is
one of standard, missing, mixed; problem generation itself treats
`"both"` exactly like `"mixed"`. -/
theorem mode_normalized (maxn nq : Nat) (operation mode : String) (r : Rng)
    (hmode : mode = "standard" ∨ mode = "missing" ∨ mode = "both") :
    ((start_session maxn nq operation mode r).1.mode = "standard" ∨
     (start_session maxn nq operation mode r).1.mode = "missing" ∨
     (start_session maxn nq operation mode r).1.mode = "mixed") ∧
    (start_session maxn nq operation "both" r).1.mode = "mixed" ∧
    (∀ r2 : Rng, choose_missing "both" r2 = choose_missing "mixed" r2) := by
  refine ⟨?_, rfl, fun r2 => rfl⟩
  rcases hmode with rfl | rfl | rfl
  · exact Or.inl rfl
  · exact Or.inr (Or.inl rfl)
  · exact Or.inr (Or.inr rfl)

theorem mode_normalized_witness :
    (start_session 10 5 "addition" "both" ⟨fun _ => 0, 0⟩).1.mode = "mixed" :=
  (mode_normalized 10 5 "addition" "both" ⟨fun _ => 0, 0⟩
    (Or.inr (Or.inr rfl))).2.1
